import Mathlib

/-!
Verification development for the crypto exchange WebSocket listener service.

The definitions below are a shallow embedding of the Python sources:

* `src/common/base_listener.py` — shared connection-status state, the
  `/health` and `/market` HTTP handlers, and the runtime glue;
* `src/binance_listener/binance_listener.py` — the Binance adapter
  (stream-URL construction and depth-message processing);
* `src/crypto_com_listener/crypto_listener.py` — the Crypto.com adapter
  (subscription message, heartbeat handling, book-message processing).

Modelling conventions:

* Python `float` timestamps are modelled as rationals (`ℚ`); the arithmetic
  used by the code (subtraction and comparisons against 30/60/90) is exact.
* Python dictionaries produced by `json.loads` are modelled as structures
  whose fields are `Option`-valued: `none` models an absent key (the code
  only ever reads keys via `in` tests or `.get` with a default; a key
  present with JSON `null` behaves like an absent key in this model).
* Python truthiness tests (`if error:`, `if last_message_time:`,
  `if not data:`) are modelled explicitly: the empty string, `0` and the
  empty list are falsy.
* Order-book levels (price/quantity pairs) are never inspected by the
  code, so they are a type parameter `L`.
* JSON rendering/serialisation and logging are display-only and are not
  modelled; handlers return structured values instead of serialised bodies
  (e.g. `round(x, 2)` formatting of ages is not modelled).
-/

namespace CryptoWs

/-- Python truthiness of an optional string (`if error:` in
`_update_connection_status`): `None` and `""` are falsy. -/
def pyTruthyStr : Option String → Bool
  | none => false
  | some s => decide (s ≠ "")

/-- Python truthiness of an optional float (`if last_message_time:` in
`handle_health`): `None` and `0.0` are falsy. -/
def pyTruthyTime : Option ℚ → Bool
  | none => false
  | some q => decide (q ≠ 0)

/-- Python `int()` applied to a float: truncation toward zero. -/
def pyInt (q : ℚ) : Int := if 0 ≤ q then ⌊q⌋ else ⌈q⌉

/-- Split a character list at every occurrence of `c`, keeping empty
segments — the semantics of Python `str.split(c)` for a one-character
separator. The result is always non-empty. -/
def splitChar (c : Char) : List Char → List (List Char)
  | [] => [[]]
  | x :: xs =>
    if x = c then
      [] :: splitChar c xs
    else
      let r := splitChar c xs
      (x :: r.headD []) :: r.tail

/-- Python `s.split(c)` for a single-character separator `c`. -/
def pySplit (c : Char) (s : String) : List String :=
  (splitChar c s.data).map fun l => ⟨l⟩

/-- Python `c in s` for a one-character needle. -/
def pyContains (s : String) (c : Char) : Bool := s.data.contains c

/-- Python `s.startswith(pre)`. -/
def pyStartsWith (s pre : String) : Bool := pre.data.isPrefixOf s.data

/-- Fuel-indexed worker for `pyReplace`; the fuel is the length of the
scanned list, so it never runs out. -/
def pyReplaceFuel (pat repl : List Char) : Nat → List Char → List Char
  | 0, l => l
  | _ + 1, [] => []
  | fuel + 1, c :: rest =>
    if pat ≠ [] ∧ pat.isPrefixOf (c :: rest) then
      repl ++ pyReplaceFuel pat repl fuel (rest.drop (pat.length - 1))
    else
      c :: pyReplaceFuel pat repl fuel rest

/-- Python `s.replace(pat, repl)`: every non-overlapping occurrence,
scanning left to right.  (The code only calls this with the non-empty
pattern `"/ws"`; Python's special case for an empty pattern is not
modelled.) -/
def pyReplace (s pat repl : String) : String :=
  ⟨pyReplaceFuel pat.data repl.data s.data.length s.data⟩

/-- The information carried by a Python `json.JSONDecodeError`. -/
structure JsonDecodeError where
  msg : String
  lineno : Nat
  colno : Nat
  pos : Nat
deriving Repr, DecidableEq

/-- `str(e)` for a `json.JSONDecodeError` — CPython renders it as
`"<msg>: line <l> column <c> (char <p>)"`, which is never empty. -/
def JsonDecodeError.str (e : JsonDecodeError) : String :=
  e.msg ++ ": line " ++ toString e.lineno ++ " column " ++ toString e.colno
    ++ " (char " ++ toString e.pos ++ ")"

/-- `self.connection_status` from `BaseExchangeListener.__init__`. -/
structure ConnectionStatus where
  connected : Bool
  exchange : String
  last_message_time : Option ℚ
  message_count : Nat
  error_count : Nat
  last_error : Option String
  start_time : ℚ
deriving Repr, DecidableEq

/-- `BaseExchangeListener._update_connection_status`. -/
def update_connection_status (st : ConnectionStatus) (connected : Bool)
    (error : Option String) : ConnectionStatus :=
  if pyTruthyStr error then
    { st with connected := connected, error_count := st.error_count + 1,
              last_error := error }
  else
    { st with connected := connected, last_error := none }

/-- `BaseExchangeListener._update_message_received`. -/
def update_message_received (st : ConnectionStatus) (now : ℚ) : ConnectionStatus :=
  { st with last_message_time := some now, message_count := st.message_count + 1 }

/-- The health flags and status code computed by
`BaseExchangeListener.handle_health`.  (The JSON body is rendered from
these flags plus the raw metrics; the rendering is not modelled.) -/
structure HealthReport where
  ws_healthy : Bool
  system_healthy : Bool
  redis_healthy : Bool
  overall_healthy : Bool
  status_code : Nat
deriving Repr, DecidableEq

/-- `BaseExchangeListener.handle_health`.  `sys` is the outcome of the
`psutil` sampling: `none` models the `except` branch (sampling failed),
`some (cpu, mem, disk)` the sampled percentages.  `redisClient` is
whether `self.redis_client` is set, `redisPingOk` whether a ping on it
would succeed. -/
def handle_health (st : ConnectionStatus) (now : ℚ)
    (sys : Option (ℚ × ℚ × ℚ)) (redisClient : Bool) (redisPingOk : Bool) :
    HealthReport :=
  let last_message_age : Option ℚ :=
    if pyTruthyTime st.last_message_time then
      some (now - st.last_message_time.getD 0)
    else none
  let ws_healthy : Bool :=
    match last_message_age with
    | some a => st.connected && decide (a < 30)
    | none => st.connected
  let system_healthy : Bool :=
    match sys with
    | some (cpu, mem, disk) =>
      decide (cpu < 90) && decide (mem < 90) && decide (disk < 90)
    | none => false
  let redis_healthy : Bool := redisClient && redisPingOk
  let overall_healthy : Bool := ws_healthy && system_healthy && redis_healthy
  { ws_healthy := ws_healthy, system_healthy := system_healthy,
    redis_healthy := redis_healthy, overall_healthy := overall_healthy,
    status_code := if overall_healthy then 200 else 503 }

/-- Body of the `/market` response (the shapes of the three JSON bodies
built by `handle_market_data`).  `data_age_seconds` carries the exact
age; the source rounds it to two decimals for display only. -/
inductive MarketBody (S : Type) where
  | errorOnly (error : String)
  | staleBody (error : String) (data_age_seconds : ℚ) (last_data : S)
  | snapshot (data : S)
deriving Repr, DecidableEq

/-- Status code plus body of a `/market` response. -/
structure MarketResponse (S : Type) where
  status_code : Nat
  body : MarketBody S
deriving Repr, DecidableEq

/-- `BaseExchangeListener.handle_market_data`.  `S` is the snapshot type
(a Python dict); `received_at` reads its `"received_at"` entry. -/
def handle_market_data {S : Type} (received_at : S → ℚ) (latest : Option S)
    (now : ℚ) : MarketResponse S :=
  match latest with
  | none => ⟨503, .errorOnly "No market data available yet"⟩
  | some d =>
    let data_age := now - received_at d
    if data_age > 60 then
      ⟨503, .staleBody "Market data is stale" data_age d⟩
    else
      ⟨200, .snapshot d⟩

/-- The depth-payload keys of a Binance message (`lastUpdateId`, `bids`,
`asks`), each optional because the code reads them via `in` / `.get`. -/
structure BinanceDepth (L : Type) where
  lastUpdateId : Option Int
  bids : Option (List L)
  asks : Option (List L)
deriving Repr

/-- A parsed Binance frame: the envelope keys `stream` / `data` plus the
top-level depth keys of the same dict (used in single-stream form). -/
structure BinanceMsg (L : Type) where
  stream : Option String
  data : Option (BinanceDepth L)
  depth : BinanceDepth L
deriving Repr

/-- The dict built by `BinanceListener._process_depth_update`. -/
structure BinanceSnapshot (L : Type) where
  exchange : String
  symbol : String
  stream : String
  last_update_id : Option Int
  timestamp : Int
  best_bid : Option L
  best_ask : Option L
  bid_count : Nat
  ask_count : Nat
  bids : List L
  asks : List L
  received_at : ℚ
deriving Repr

/-- `BinanceListener._process_depth_update`.  (`timestamp` and
`received_at` come from two adjacent `time.time()` calls in the source;
the model uses the same instant `now` for both.) -/
def process_depth_update {L : Type} (msg : BinanceDepth L) (stream : String)
    (now : ℚ) : BinanceSnapshot L :=
  let symbol := if pyContains stream '@' then (pySplit '@' stream).headD "" else stream
  let bids := msg.bids.getD []
  let asks := msg.asks.getD []
  { exchange := "binance"
    symbol := symbol
    stream := stream
    last_update_id := msg.lastUpdateId
    timestamp := pyInt (now * 1000)
    best_bid := bids.head?
    best_ask := asks.head?
    bid_count := bids.length
    ask_count := asks.length
    bids := bids.take 5
    asks := asks.take 5
    received_at := now }

/-- One order-book entry of a Crypto.com `result.data` array. -/
structure CryptoBook (L : Type) where
  bids : Option (List L)
  asks : Option (List L)
  t : Option Int
deriving Repr

/-- The `result` object of a Crypto.com frame. -/
structure CryptoResult (L : Type) where
  subscription : Option String
  data : Option (List (CryptoBook L))
deriving Repr

/-- A parsed Crypto.com frame (`method`, `id`, `result` keys). -/
structure CryptoMsg (L : Type) where
  method : Option String
  id : Option Int
  result : Option (CryptoResult L)
deriving Repr

/-- The dict built by `CryptoListener._process_book_data`. -/
structure CryptoSnapshot (L : Type) where
  exchange : String
  subscription : String
  symbol : String
  timestamp : Option Int
  best_bid : Option L
  best_ask : Option L
  bid_count : Nat
  ask_count : Nat
  bids : List L
  asks : List L
  received_at : ℚ
deriving Repr

/-- `CryptoListener._process_book_data`.  Returns `none` when the `data`
array is missing or empty (`if not data: return`) — the shared snapshot
is then left untouched by the caller. -/
def process_book_data {L : Type} (result : CryptoResult L) (subscription : String)
    (now : ℚ) : Option (CryptoSnapshot L) :=
  match result.data.getD [] with
  | [] => none
  | book :: _ =>
    let bids := book.bids.getD []
    let asks := book.asks.getD []
    let symbol :=
      if pyStartsWith subscription "book." then
        let parts := pySplit '.' subscription
        if 2 ≤ parts.length then parts.getD 1 "unknown" else "unknown"
      else "unknown"
    some
      { exchange := "crypto.com"
        subscription := subscription
        symbol := symbol
        timestamp := book.t
        best_bid := bids.head?
        best_ask := asks.head?
        bid_count := bids.length
        ask_count := asks.length
        bids := bids.take 5
        asks := asks.take 5
        received_at := now }

/-- A raw WebSocket text frame after the `json.loads` `try`/`except`:
either a decode failure or a parsed message. -/
inductive RawFrame (J : Type) where
  | invalid (e : JsonDecodeError)
  | valid (msg : J)

/-- The shared mutable state of one listener process: the connection
status, the latest snapshot slot, and whether `self.redis_client` is
set (`true` iff it is not `None`). -/
structure ListenerState (S : Type) where
  conn : ConnectionStatus
  latest : Option S
  redisClient : Bool

/-- One iteration of the Binance ingestion loop body
(`BinanceListener.connect_and_subscribe`, inner `while True`), acting on
one received frame.  (`streams[0]` in the single-stream branch is
modelled with `headD`; the loop only runs with a non-empty stream
list.) -/
def binanceStep {L : Type} (streams : List String)
    (st : ListenerState (BinanceSnapshot L)) (frame : RawFrame (BinanceMsg L))
    (now : ℚ) : ListenerState (BinanceSnapshot L) :=
  let st1 := { st with conn := update_message_received st.conn now }
  match frame with
  | .invalid e =>
    { st1 with conn := update_connection_status st1.conn true (some e.str) }
  | .valid m =>
    match m.stream, m.data with
    | some stream_name, some d =>
      if d.lastUpdateId.isSome then
        { st1 with latest := some (process_depth_update d stream_name now) }
      else st1
    | some _, none =>
      if m.depth.lastUpdateId.isSome then
        { st1 with latest := some (process_depth_update m.depth (streams.headD "") now) }
      else st1
    | none, _ =>
      if m.depth.lastUpdateId.isSome then
        { st1 with latest := some (process_depth_update m.depth (streams.headD "") now) }
      else st1

/-- `params` of the Crypto.com subscribe request. -/
structure SubParams where
  channels : List String
  nonce : Int
deriving Repr, DecidableEq

/-- The Crypto.com subscribe request dict. -/
structure SubscribeMsg where
  id : Int
  method : String
  params : SubParams
deriving Repr, DecidableEq

/-- The Crypto.com heartbeat reply dict. -/
structure HeartbeatReply where
  id : Int
  method : String
deriving Repr, DecidableEq

/-- A message sent out over the Crypto.com WebSocket. -/
inductive Sent where
  | sub (m : SubscribeMsg)
  | heartbeatReply (m : HeartbeatReply)
deriving Repr, DecidableEq

/-- Whether an outbound message is a subscribe request. -/
def Sent.isSubscribe : Sent → Bool
  | .sub _ => true
  | .heartbeatReply _ => false

/-- `CryptoListener._subscription_message` (`now` is the `time.time()`
value; the nonce is `int(time.time() * 1000)`). -/
def subscription_message (channels : List String) (now : ℚ) : SubscribeMsg :=
  { id := 3217
    method := "subscribe"
    params := { channels := channels, nonce := pyInt (now * 1000) } }

/-- One iteration of the Crypto.com ingestion loop body
(`CryptoListener.connect_and_subscribe`, inner `while True`): the new
state plus the messages sent during the iteration. -/
def cryptoStep {L : Type} (st : ListenerState (CryptoSnapshot L))
    (frame : RawFrame (CryptoMsg L)) (now : ℚ) :
    ListenerState (CryptoSnapshot L) × List Sent :=
  let st1 := { st with conn := update_message_received st.conn now }
  match frame with
  | .invalid e =>
    ({ st1 with conn := update_connection_status st1.conn true (some e.str) }, [])
  | .valid m =>
    if m.method = some "public/heartbeat" then
      match m.id with
      | some hb_id =>
        (st1, [.heartbeatReply { id := hb_id, method := "public/respond-heartbeat" }])
      | none => (st1, [])
    else
      match m.result with
      | some r =>
        let subscription := r.subscription.getD ""
        if pyStartsWith subscription "book." then
          ({ st1 with
              latest :=
                match process_book_data r subscription now with
                | some s => some s
                | none => st1.latest }, [])
        else (st1, [])
      | none => (st1, [])

/-- Default Binance endpoint (`connection.endpoint` default in
`BinanceListener.get_default_config`). -/
def binance_default_endpoint : String := "wss://stream.binance.com:9443/ws"

/-- Stream name built in `BinanceListener.get_default_config`:
`f"{symbol}@depth{depth}"`. -/
def build_stream (symbol : String) (depth : Nat) : String :=
  symbol ++ "@depth" ++ toString depth

/-- WebSocket URL construction from `BinanceListener.connect_and_subscribe`:
one stream connects to `<endpoint>/<stream>`, several to
`<endpoint with "/ws" replaced by "/stream">?streams=<s1>/<s2>/...`. -/
def connect_ws_url (endpoint : String) (streams : List String) : String :=
  if streams.length = 1 then
    endpoint ++ "/" ++ streams.headD ""
  else
    pyReplace endpoint "/ws" "/stream" ++ "?streams=" ++ String.intercalate "/" streams

/-- The status-tracker operations performed by the ingestion loops:
`_update_connection_status(connected, error)` and
`_update_message_received()` (the latter stamped with the current
time). -/
inductive StatusOp where
  | updateStatus (connected : Bool) (error : Option String)
  | recordMessage (now : ℚ)

/-- Apply one status-tracker operation. -/
def applyOp (st : ConnectionStatus) : StatusOp → ConnectionStatus
  | .updateStatus c e => update_connection_status st c e
  | .recordMessage now => update_message_received st now

/-- Apply a sequence of status-tracker operations, oldest first. -/
def applyOps (st : ConnectionStatus) (ops : List StatusOp) : ConnectionStatus :=
  ops.foldl applyOp st

/-- The state set up by `BaseExchangeListener.__init__`: disconnected,
no messages, no snapshot, and `self.redis_client = None`. -/
def initState {S : Type} (name : String) (t0 : ℚ) : ListenerState S :=
  { conn :=
      { connected := false
        exchange := name
        last_message_time := none
        message_count := 0
        error_count := 0
        last_error := none
        start_time := t0 }
    latest := none
    redisClient := false }

/-- States reachable by a Binance listener run through
`run_server_and_ws` (which leaves the Redis setup call commented out):
start in `initState`, mark connected on WebSocket connect, take loop
steps, mark disconnected with an error on a connection-level failure. -/
inductive BinanceReach (L : Type) (streams : List String) :
    ListenerState (BinanceSnapshot L) → Prop
  | init (t0 : ℚ) : BinanceReach L streams (initState "binance" t0)
  | connected {s} : BinanceReach L streams s →
      BinanceReach L streams { s with conn := update_connection_status s.conn true none }
  | frame {s} (f : RawFrame (BinanceMsg L)) (now : ℚ) :
      BinanceReach L streams s → BinanceReach L streams (binanceStep streams s f now)
  | disconnected {s} (e : String) : BinanceReach L streams s →
      BinanceReach L streams { s with conn := update_connection_status s.conn false (some e) }

/-- States reachable by a Crypto.com listener run through
`run_server_and_ws`; the subscribe handshake sends a message but does
not change the shared state. -/
inductive CryptoReach (L : Type) : ListenerState (CryptoSnapshot L) → Prop
  | init (t0 : ℚ) : CryptoReach L (initState "crypto.com" t0)
  | connected {s} : CryptoReach L s →
      CryptoReach L { s with conn := update_connection_status s.conn true none }
  | frame {s} (f : RawFrame (CryptoMsg L)) (now : ℚ) :
      CryptoReach L s → CryptoReach L (cryptoStep s f now).1
  | disconnected {s} (e : String) : CryptoReach L s →
      CryptoReach L { s with conn := update_connection_status s.conn false (some e) }

/-! ### Helper lemmas -/

theorem splitChar_ne_nil (c : Char) (l : List Char) : splitChar c l ≠ [] := by
  cases l with
  | nil => simp [splitChar]
  | cons x xs => simp only [splitChar]; split <;> simp

theorem splitChar_cons_self (c : Char) (xs : List Char) :
    splitChar c (c :: xs) = [] :: splitChar c xs := by
  simp [splitChar]

theorem splitChar_cons_ne (c x : Char) (xs : List Char) (h : ¬ x = c) :
    splitChar c (x :: xs) = (x :: (splitChar c xs).headD []) :: (splitChar c xs).tail := by
  simp [splitChar, h]

theorem splitChar_book (rest : List Char) :
    splitChar '.' ("book.".data ++ rest) = "book".data :: splitChar '.' rest := by
  show splitChar '.' ('b' :: 'o' :: 'o' :: 'k' :: '.' :: rest)
      = ['b', 'o', 'o', 'k'] :: splitChar '.' rest
  rw [splitChar_cons_ne _ _ _ (by decide), splitChar_cons_ne _ _ _ (by decide),
      splitChar_cons_ne _ _ _ (by decide), splitChar_cons_ne _ _ _ (by decide),
      splitChar_cons_self]
  simp

theorem JsonDecodeError.str_ne_empty (e : JsonDecodeError) : e.str ≠ "" := by
  intro h
  have hd : e.str.data = [] := by rw [h]
  simp only [JsonDecodeError.str, String.data_append, List.append_eq_nil] at hd
  exact absurd hd.1.1.1.1.1.1.2 (by decide)

theorem exists_append_of_isPrefixOf :
    ∀ {l r : List Char}, l.isPrefixOf r = true → ∃ t, l ++ t = r := by
  intro l
  induction l with
  | nil => exact fun h => ⟨_, rfl⟩
  | cons a as ih =>
    intro r h
    cases r with
    | nil => simp [List.isPrefixOf] at h
    | cons b bs =>
      simp only [List.isPrefixOf, Bool.and_eq_true, beq_iff_eq] at h
      obtain ⟨hab, ht⟩ := h
      obtain ⟨t, htt⟩ := ih ht
      exact ⟨t, by rw [hab, List.cons_append, htt]⟩

theorem getD_one_of_two_le {α : Type} (l : List α) (h : 2 ≤ l.length) (d d' : α) :
    l.getD 1 d = l.getD 1 d' := by
  match l with
  | _ :: _ :: _ => simp [List.getD]
  | [] => simp at h
  | [_] => simp at h

/-! ### Claims -/

/-- C1: the GET /market handler returns 503 with an error body when no
snapshot was ever stored, 503 with the stale error text, the data age and
the last snapshot when the stored snapshot is older than 60 seconds, and
200 with exactly the stored snapshot otherwise. -/
theorem market_endpoint_staleness {S : Type} (received_at : S → ℚ)
    (latest : Option S) (now : ℚ) :
    (latest = none →
      handle_market_data received_at latest now
        = ⟨503, .errorOnly "No market data available yet"⟩) ∧
    (∀ d, latest = some d → now - received_at d > 60 →
      handle_market_data received_at latest now
        = ⟨503, .staleBody "Market data is stale" (now - received_at d) d⟩) ∧
    (∀ d, latest = some d → now - received_at d ≤ 60 →
      handle_market_data received_at latest now = ⟨200, .snapshot d⟩) := by
  refine ⟨?_, ?_, ?_⟩
  · intro h; subst h; rfl
  · intro d h hage; subst h
    simp only [handle_market_data]
    rw [if_pos hage]
  · intro d h hage; subst h
    simp only [handle_market_data]
    rw [if_neg (by linarith : ¬ now - received_at d > 60)]

/-- Witness for C1: the three branches at concrete inputs. -/
theorem market_endpoint_staleness_witness :
    handle_market_data (id : ℚ → ℚ) none 100
      = ⟨503, .errorOnly "No market data available yet"⟩ ∧
    handle_market_data (id : ℚ → ℚ) (some 10) 100
      = ⟨503, .staleBody "Market data is stale" 90 10⟩ ∧
    handle_market_data (id : ℚ → ℚ) (some 90) 100 = ⟨200, .snapshot 90⟩ := by
  refine ⟨?_, ?_, ?_⟩
  · exact (market_endpoint_staleness id none 100).1 rfl
  · have h := (market_endpoint_staleness id (some 10) 100).2.1 10 rfl (by norm_num)
    norm_num at h
    exact h
  · exact (market_endpoint_staleness id (some 90) 100).2.2 90 rfl (by norm_num)

/-- A health-check state exhibiting the Python-truthiness gap of C2:
`last_message_time` is recorded but equal to `0.0`, which the source's
`if self.connection_status["last_message_time"]:` treats as absent. -/
def zeroTimeStatus : ConnectionStatus :=
  { connected := true
    exchange := "binance"
    last_message_time := some 0
    message_count := 5
    error_count := 0
    last_error := none
    start_time := 0 }

/-- C2 counterexample: with a recorded last message time of `0` (a falsy
float), `connected = true`, age `100 - 0 ≥ 30`, healthy system metrics
and a healthy Redis probe, the handler returns 200, not the claimed
503 — the age check is skipped because `0.0` is falsy in Python. -/
theorem health_stale_claim_counterexample :
    zeroTimeStatus.connected = true ∧
    zeroTimeStatus.last_message_time = some 0 ∧
    (100 : ℚ) - 0 ≥ 30 ∧
    (handle_health zeroTimeStatus 100 (some (50, 50, 50)) true true).status_code
      = 200 := by
  refine ⟨rfl, rfl, by norm_num, ?_⟩
  simp [handle_health, zeroTimeStatus, pyTruthyTime]
  norm_num

/-- C2 (amended): the GET /health handler returns 503 whenever
`connected = false`, regardless of all other metrics; and it returns 503
whenever a nonzero last message time is recorded and
`now - last_message_time ≥ 30`, even if `connected = true`.  (The
amendment adds "nonzero": the source tests the recorded time for Python
truthiness, so a recorded time of exactly `0.0` is treated as absent.) -/
theorem health_unhealthy_conditions (st : ConnectionStatus) (now : ℚ)
    (sys : Option (ℚ × ℚ × ℚ)) (redisClient : Bool) (ping : Bool) :
    (st.connected = false →
      (handle_health st now sys redisClient ping).status_code = 503) ∧
    (∀ t, st.last_message_time = some t → t ≠ 0 → now - t ≥ 30 →
      (handle_health st now sys redisClient ping).status_code = 503) := by
  constructor
  · intro hc
    cases h : st.last_message_time with
    | none => simp [handle_health, pyTruthyTime, hc, h]
    | some t =>
      by_cases ht : t = 0 <;>
        simp [handle_health, pyTruthyTime, hc, h, ht]
  · intro t ht hz hage
    have hlt : ¬ (now - t < 30) := by linarith
    simp [handle_health, pyTruthyTime, ht, hz, hlt]

/-- Witness for C2 (amended): both 503 conditions at concrete inputs. -/
theorem health_unhealthy_conditions_witness :
    (handle_health ⟨false, "binance", none, 0, 0, none, 0⟩ 100
        (some (50, 50, 50)) true true).status_code = 503 ∧
    (handle_health ⟨true, "binance", some 31, 5, 0, none, 0⟩ 100
        (some (50, 50, 50)) true true).status_code = 503 :=
  ⟨(health_unhealthy_conditions _ 100 _ true true).1 rfl,
   (health_unhealthy_conditions _ 100 _ true true).2 31 rfl (by norm_num) (by norm_num)⟩

/-- C3: for every depth/book message whose bid list has K entries and ask
list has M entries, the Binance and Crypto.com snapshot builders report
`bid_count = K` and `ask_count = M`, keep exactly the first `min(K, 5)`
bid entries and `min(M, 5)` ask entries in delivered order, and set
`best_bid` / `best_ask` to the first entry of the respective list when it
is non-empty and to none when it is empty (`head?`). -/
theorem snapshot_counts_and_truncation {L : Type} (bids asks : List L)
    (luid : Option Int) (stream : String) (ssub : Option String) (sub : String)
    (t : Option Int) (rest : List (CryptoBook L)) (now : ℚ) :
    ((process_depth_update ⟨luid, some bids, some asks⟩ stream now).bid_count
        = bids.length ∧
     (process_depth_update ⟨luid, some bids, some asks⟩ stream now).ask_count
        = asks.length ∧
     (process_depth_update ⟨luid, some bids, some asks⟩ stream now).bids
        = bids.take (min bids.length 5) ∧
     (process_depth_update ⟨luid, some bids, some asks⟩ stream now).asks
        = asks.take (min asks.length 5) ∧
     (process_depth_update ⟨luid, some bids, some asks⟩ stream now).best_bid
        = bids.head? ∧
     (process_depth_update ⟨luid, some bids, some asks⟩ stream now).best_ask
        = asks.head?) ∧
    ((process_book_data ⟨ssub, some (⟨some bids, some asks, t⟩ :: rest)⟩ sub now).map
        CryptoSnapshot.bid_count = some bids.length ∧
     (process_book_data ⟨ssub, some (⟨some bids, some asks, t⟩ :: rest)⟩ sub now).map
        CryptoSnapshot.ask_count = some asks.length ∧
     (process_book_data ⟨ssub, some (⟨some bids, some asks, t⟩ :: rest)⟩ sub now).map
        CryptoSnapshot.bids = some (bids.take (min bids.length 5)) ∧
     (process_book_data ⟨ssub, some (⟨some bids, some asks, t⟩ :: rest)⟩ sub now).map
        CryptoSnapshot.asks = some (asks.take (min asks.length 5)) ∧
     (process_book_data ⟨ssub, some (⟨some bids, some asks, t⟩ :: rest)⟩ sub now).map
        CryptoSnapshot.best_bid = some bids.head? ∧
     (process_book_data ⟨ssub, some (⟨some bids, some asks, t⟩ :: rest)⟩ sub now).map
        CryptoSnapshot.best_ask = some asks.head?) := by
  have htake : ∀ (l : List L), l.take 5 = l.take (min l.length 5) := by
    intro l
    rw [List.take_eq_take]
    omega
  constructor <;>
    simp [process_depth_update, process_book_data, ← htake]

/-- C4: in both ingestion loops, a frame that is not valid JSON increments
`error_count` by exactly one, leaves the latest snapshot unchanged and
leaves `connected` true (the Crypto.com loop also sends nothing); the
step completes normally, so the loop continues with the next frame. -/
theorem invalid_json_frame {L : Type} (streams : List String)
    (stB : ListenerState (BinanceSnapshot L))
    (stC : ListenerState (CryptoSnapshot L)) (e : JsonDecodeError) (now : ℚ) :
    ((binanceStep streams stB (.invalid e) now).conn.error_count
        = stB.conn.error_count + 1 ∧
     (binanceStep streams stB (.invalid e) now).latest = stB.latest ∧
     (binanceStep streams stB (.invalid e) now).conn.connected = true) ∧
    ((cryptoStep stC (.invalid e) now).1.conn.error_count
        = stC.conn.error_count + 1 ∧
     (cryptoStep stC (.invalid e) now).1.latest = stC.latest ∧
     (cryptoStep stC (.invalid e) now).1.conn.connected = true ∧
     (cryptoStep stC (.invalid e) now).2 = []) := by
  have htr : pyTruthyStr (some e.str) = true := by
    simp [pyTruthyStr, e.str_ne_empty]
  constructor <;>
    simp [binanceStep, cryptoStep, update_connection_status,
      update_message_received, htr]

/-- C5: in the Crypto.com loop, the heartbeat frame with method
`public/heartbeat` and id 42 triggers exactly one outbound reply with the
same id and method `public/respond-heartbeat`, increments
`message_count` by one, and leaves the latest snapshot unchanged. -/
theorem heartbeat_reply_step {L : Type} (st : ListenerState (CryptoSnapshot L))
    (now : ℚ) :
    cryptoStep st
        (.valid { method := some "public/heartbeat", id := some 42, result := none })
        now
      = ({ st with conn := update_message_received st.conn now },
         [.heartbeatReply { id := 42, method := "public/respond-heartbeat" }]) ∧
    (cryptoStep st
        (.valid { method := some "public/heartbeat", id := some 42, result := none })
        now).1.conn.message_count = st.conn.message_count + 1 ∧
    (cryptoStep st
        (.valid { method := some "public/heartbeat", id := some 42, result := none })
        now).1.latest = st.latest := by
  refine ⟨rfl, ?_, ?_⟩ <;> simp [cryptoStep, update_message_received]

/-- C6: for a one-element stream list the Binance URL is the endpoint
followed by `/` and the stream name (with the default endpoint and
`btcusdt` at depth 10 it ends with `/ws/btcusdt@depth10`); for more than
one stream it is the endpoint with `/ws` replaced by `/stream`, followed
by `?streams=` and the stream names joined by `/`. -/
theorem binance_ws_url (endpoint s : String) (streams : List String) :
    (connect_ws_url endpoint [s] = endpoint ++ "/" ++ s) ∧
    (1 < streams.length →
      connect_ws_url endpoint streams
        = pyReplace endpoint "/ws" "/stream" ++ "?streams="
            ++ String.intercalate "/" streams) ∧
    (connect_ws_url binance_default_endpoint [build_stream "btcusdt" 10]
      = "wss://stream.binance.com:9443" ++ "/ws/btcusdt@depth10") ∧
    (connect_ws_url binance_default_endpoint
        [build_stream "btcusdt" 10, build_stream "ethusdt" 10]
      = "wss://stream.binance.com:9443/stream?streams=btcusdt@depth10/ethusdt@depth10") := by
  refine ⟨?_, ?_, ?_, ?_⟩
  · simp [connect_ws_url]
  · intro h
    simp only [connect_ws_url]
    rw [if_neg (by omega)]
  · decide
  · decide

/-- Witness for C6: the multi-stream branch at a concrete two-stream
list. -/
theorem binance_ws_url_witness :
    connect_ws_url "wss://x/ws" ["a", "b"]
      = pyReplace "wss://x/ws" "/ws" "/stream" ++ "?streams="
          ++ String.intercalate "/" ["a", "b"] :=
  (binance_ws_url "wss://x/ws" "a" ["a", "b"]).2.1 (by decide)

/-- C7: for every channel list the Crypto.com subscription message has
integer id 3217, method `subscribe`, `params.channels` equal to the given
channels and `params.nonce` equal to the epoch time in milliseconds; and
the ingestion loop never sends another subscribe request, so the id is
unique among subscribe requests of a connection. -/
theorem subscribe_message_shape {L : Type} (channels : List String) (now : ℚ)
    (st : ListenerState (CryptoSnapshot L)) (f : RawFrame (CryptoMsg L))
    (now' : ℚ) :
    (subscription_message channels now).id = 3217 ∧
    (subscription_message channels now).method = "subscribe" ∧
    (subscription_message channels now).params.channels = channels ∧
    (subscription_message channels now).params.nonce = pyInt (now * 1000) ∧
    ((cryptoStep st f now').2.all fun m => !m.isSubscribe) = true := by
  refine ⟨rfl, rfl, rfl, rfl, ?_⟩
  cases f with
  | invalid e => rfl
  | valid m =>
    obtain ⟨mm, mid, mres⟩ := m
    by_cases hm : mm = some "public/heartbeat"
    · cases mid <;> simp [cryptoStep, hm, Sent.isSubscribe]
    · cases mres with
      | none => simp [cryptoStep, hm]
      | some r =>
        by_cases hb : pyStartsWith (r.subscription.getD "") "book." = true <;>
          simp [cryptoStep, hm, hb]

theorem applyOp_error_le (st : ConnectionStatus) (op : StatusOp) :
    st.error_count ≤ (applyOp st op).error_count := by
  cases op with
  | updateStatus c e =>
    simp only [applyOp, update_connection_status]
    split <;> simp
  | recordMessage now => simp [applyOp, update_message_received]

/-- C8: across every sequence of status-tracker operations the error
count never decreases (so it is never reset), and a status update that
carries no error clears `last_error` to none while keeping `error_count`
unchanged. -/
theorem status_error_count_monotone (ops : List StatusOp)
    (st : ConnectionStatus) (b : Bool) :
    st.error_count ≤ (applyOps st ops).error_count ∧
    (update_connection_status st b none).last_error = none ∧
    (update_connection_status st b none).error_count = st.error_count := by
  refine ⟨?_, ?_, ?_⟩
  · induction ops generalizing st with
    | nil => simp [applyOps]
    | cons op ops ih =>
      show st.error_count ≤ (applyOps (applyOp st op) ops).error_count
      exact le_trans (applyOp_error_le st op) (ih (applyOp st op))
  · simp [update_connection_status, pyTruthyStr]
  · simp [update_connection_status, pyTruthyStr]

/-- C9: a Crypto.com book frame whose `result.subscription` starts with
`book.` but whose data array is empty is ignored — the latest snapshot is
not replaced and `error_count` is not incremented; when the data array is
non-empty, the snapshot's symbol is the second dot-separated segment of
the subscription string (the split has at least two segments, so the
`"unknown"` fallback is not taken). -/
theorem book_data_empty_ignored_and_symbol {L : Type}
    (st : ListenerState (CryptoSnapshot L)) (method : Option String)
    (id : Option Int) (ssub : Option String) (sub : String)
    (book : CryptoBook L) (rest : List (CryptoBook L)) (now : ℚ) :
    process_book_data (⟨ssub, some []⟩ : CryptoResult L) sub now = none ∧
    process_book_data (⟨ssub, none⟩ : CryptoResult L) sub now = none ∧
    (method ≠ some "public/heartbeat" →
      (cryptoStep st (.valid ⟨method, id, some ⟨some sub, some []⟩⟩) now).1.latest
        = st.latest ∧
      (cryptoStep st (.valid ⟨method, id, some ⟨some sub, some []⟩⟩) now).1.conn.error_count
        = st.conn.error_count) ∧
    (pyStartsWith sub "book." = true →
      2 ≤ (pySplit '.' sub).length ∧
      (process_book_data ⟨ssub, some (book :: rest)⟩ sub now).map
          CryptoSnapshot.symbol
        = some ((pySplit '.' sub).getD 1 "")) := by
  refine ⟨rfl, rfl, ?_, ?_⟩
  · intro hm
    by_cases hb : pyStartsWith sub "book." = true <;>
      simp [cryptoStep, hm, hb, process_book_data, update_message_received]
  · intro hsw
    obtain ⟨r', hr⟩ := exists_append_of_isPrefixOf hsw
    have hsplit : pySplit '.' sub
        = "book" :: (splitChar '.' r').map (fun l => (⟨l⟩ : String)) := by
      rw [pySplit, ← hr, splitChar_book, List.map_cons]
    have hlen : 2 ≤ (pySplit '.' sub).length := by
      rw [hsplit]
      simp only [List.length_cons, List.length_map]
      have := List.length_pos.mpr (splitChar_ne_nil '.' r')
      omega
    refine ⟨hlen, ?_⟩
    simp only [process_book_data, Option.getD_some, hsw, if_true, hlen,
      Option.map_some]
    exact congrArg some (getD_one_of_two_le _ hlen _ _)

/-- Witness for C9: a non-heartbeat book frame with an empty data array
leaves the fresh listener state untouched, and on a non-empty array for
`book.BTC_USDT.150` the symbol is the second dot segment. -/
theorem book_data_empty_ignored_and_symbol_witness :
    ((cryptoStep (initState "crypto.com" 0 : ListenerState (CryptoSnapshot Unit))
        (.valid ⟨some "subscribe", none, some ⟨some "book.BTC_USDT.150", some []⟩⟩)
        0).1.latest
      = (initState "crypto.com" 0 : ListenerState (CryptoSnapshot Unit)).latest) ∧
    ((cryptoStep (initState "crypto.com" 0 : ListenerState (CryptoSnapshot Unit))
        (.valid ⟨some "subscribe", none, some ⟨some "book.BTC_USDT.150", some []⟩⟩)
        0).1.conn.error_count
      = (initState "crypto.com" 0 : ListenerState (CryptoSnapshot Unit)).conn.error_count) ∧
    2 ≤ (pySplit '.' "book.BTC_USDT.150").length ∧
    (process_book_data
        (⟨some "book.BTC_USDT.150", some [⟨some [], some [], none⟩]⟩ :
          CryptoResult Unit) "book.BTC_USDT.150" 0).map CryptoSnapshot.symbol
      = some ((pySplit '.' "book.BTC_USDT.150").getD 1 "") :=
  ⟨((book_data_empty_ignored_and_symbol
      (initState "crypto.com" 0 : ListenerState (CryptoSnapshot Unit)) (some "subscribe")
      none (some "book.BTC_USDT.150") "book.BTC_USDT.150" ⟨some [], some [], none⟩
      [] 0).2.2.1 (by decide)).1,
   ((book_data_empty_ignored_and_symbol
      (initState "crypto.com" 0 : ListenerState (CryptoSnapshot Unit)) (some "subscribe")
      none (some "book.BTC_USDT.150") "book.BTC_USDT.150" ⟨some [], some [], none⟩
      [] 0).2.2.1 (by decide)).2,
   ((book_data_empty_ignored_and_symbol
      (initState "crypto.com" 0 : ListenerState (CryptoSnapshot Unit)) (some "subscribe")
      none (some "book.BTC_USDT.150") "book.BTC_USDT.150" ⟨some [], some [], none⟩
      [] 0).2.2.2 (by decide)).1,
   ((book_data_empty_ignored_and_symbol
      (initState "crypto.com" 0 : ListenerState (CryptoSnapshot Unit)) (some "subscribe")
      none (some "book.BTC_USDT.150") "book.BTC_USDT.150" ⟨some [], some [], none⟩
      [] 0).2.2.2 (by decide)).2⟩

theorem binanceStep_redisClient {L : Type} (streams : List String)
    (st : ListenerState (BinanceSnapshot L)) (f : RawFrame (BinanceMsg L))
    (now : ℚ) : (binanceStep streams st f now).redisClient = st.redisClient := by
  cases f with
  | invalid e => rfl
  | valid m =>
    obtain ⟨ms, md, dep⟩ := m
    cases ms <;> cases md <;>
      (dsimp only [binanceStep]; split <;> rfl)

theorem cryptoStep_redisClient {L : Type} (st : ListenerState (CryptoSnapshot L))
    (f : RawFrame (CryptoMsg L)) (now : ℚ) :
    (cryptoStep st f now).1.redisClient = st.redisClient := by
  cases f with
  | invalid e => rfl
  | valid m =>
    obtain ⟨mm, mid, mres⟩ := m
    by_cases hm : mm = some "public/heartbeat"
    · cases mid <;> simp [cryptoStep, hm]
    · cases mres with
      | none => simp [cryptoStep, hm]
      | some r =>
        by_cases hb : pyStartsWith (r.subscription.getD "") "book." = true <;>
          simp [cryptoStep, hm, hb]

theorem binanceReach_redis {L : Type} {streams : List String}
    {s : ListenerState (BinanceSnapshot L)} (h : BinanceReach L streams s) :
    s.redisClient = false := by
  induction h with
  | init t0 => rfl
  | connected _ ih => exact ih
  | frame f now _ ih => rw [binanceStep_redisClient]; exact ih
  | disconnected e _ ih => exact ih

theorem cryptoReach_redis {L : Type} {s : ListenerState (CryptoSnapshot L)}
    (h : CryptoReach L s) : s.redisClient = false := by
  induction h with
  | init t0 => rfl
  | connected _ ih => exact ih
  | frame f now _ ih => rw [cryptoStep_redisClient]; exact ih
  | disconnected e _ ih => exact ih

theorem handle_health_no_redis (st : ConnectionStatus) (now : ℚ)
    (sys : Option (ℚ × ℚ × ℚ)) (ping : Bool) :
    (handle_health st now sys false ping).redis_healthy = false ∧
    (handle_health st now sys false ping).overall_healthy = false ∧
    (handle_health st now sys false ping).status_code = 503 := by
  refine ⟨rfl, ?_, ?_⟩ <;> simp [handle_health]

/-- C10: `run_server_and_ws` never sets up the Redis client (the call is
commented out), so in every reachable state of either listener
`redis_client` is still none; the health handler's Redis probe therefore
reports `redis_healthy = false`, `overall_healthy = false`, and the
GET /health endpoint answers 503 — whatever the WebSocket and system
metrics are. -/
theorem no_redis_always_unhealthy :
    (∀ (L : Type) (streams : List String) (s : ListenerState (BinanceSnapshot L)),
      BinanceReach L streams s →
      s.redisClient = false ∧
      ∀ (now : ℚ) (sys : Option (ℚ × ℚ × ℚ)) (ping : Bool),
        (handle_health s.conn now sys s.redisClient ping).redis_healthy = false ∧
        (handle_health s.conn now sys s.redisClient ping).overall_healthy = false ∧
        (handle_health s.conn now sys s.redisClient ping).status_code = 503) ∧
    (∀ (L : Type) (s : ListenerState (CryptoSnapshot L)),
      CryptoReach L s →
      s.redisClient = false ∧
      ∀ (now : ℚ) (sys : Option (ℚ × ℚ × ℚ)) (ping : Bool),
        (handle_health s.conn now sys s.redisClient ping).redis_healthy = false ∧
        (handle_health s.conn now sys s.redisClient ping).overall_healthy = false ∧
        (handle_health s.conn now sys s.redisClient ping).status_code = 503) := by
  constructor
  · intro L streams s h
    have hr := binanceReach_redis h
    refine ⟨hr, fun now sys ping => ?_⟩
    rw [hr]
    exact handle_health_no_redis _ _ _ _
  · intro L s h
    have hr := cryptoReach_redis h
    refine ⟨hr, fun now sys ping => ?_⟩
    rw [hr]
    exact handle_health_no_redis _ _ _ _

/-- Witness for C10: the freshly started Binance and Crypto.com listeners
answer 503 on /health even with healthy metrics and a would-be healthy
ping. -/
theorem no_redis_always_unhealthy_witness :
    (handle_health (initState "binance" 0 : ListenerState (BinanceSnapshot Unit)).conn
        100 (some (50, 50, 50))
        (initState "binance" 0 : ListenerState (BinanceSnapshot Unit)).redisClient
        true).status_code = 503 ∧
    (handle_health (initState "crypto.com" 0 : ListenerState (CryptoSnapshot Unit)).conn
        100 (some (50, 50, 50))
        (initState "crypto.com" 0 : ListenerState (CryptoSnapshot Unit)).redisClient
        true).status_code = 503 :=
  ⟨((no_redis_always_unhealthy.1 Unit [] _ (BinanceReach.init 0)).2
      100 (some (50, 50, 50)) true).2.2,
   ((no_redis_always_unhealthy.2 Unit _ (CryptoReach.init 0)).2
      100 (some (50, 50, 50)) true).2.2⟩

end CryptoWs
